import Mathlib

/-!
Verification of the SmartPaws ingestion-and-aggregation pipeline.

Shallow embedding of the api-gateway controllers:
* utils/regionMapper.ts       : regionFromAddress
* controllers/dataController.ts : processCsv (column/date extraction, batched writes),
                                  backfillDatetimes (three-stage date parse)
* the heatmap engine            : getIntakeHeatmap (deriveYear, bucketFromLocation,
                                  quadrantFromString, percentile risk tiers)
* the fallback generators       : generateFallbackTrends, generateFallbackHotspots

JavaScript strings are embedded as Lean String / List Char; the small regular
expressions used by the source are embedded as explicit scanners, and the
platform-defined parts of the JS Date constructor are abstracted as parameters
(with a restricted executable model for concrete evaluations).
-/

namespace SmartPaws

/-- JS falsiness of an optional string field: undefined/null or the empty string. -/
def jsFalsy : Option String → Bool
  | none => true
  | some s => s = ""

/-- JS `a || b` on optional string values (the empty string is falsy). -/
def jsOr (a b : Option String) : Option String :=
  match a with
  | some v => if v = "" then b else some v
  | none => b

/-- Word character for the regex word-boundary class: alphanumeric or underscore. -/
def wordChar (c : Char) : Bool := c.isAlphanum || c = '_'

/-- Whitespace, for the regex class backslash-s and for trimming. -/
def wsChar (c : Char) : Bool := c.isWhitespace

/-- Bool substring test on char lists (JS String.prototype.includes). -/
def isSubstr (needle : List Char) : List Char → Bool
  | [] => needle.isEmpty
  | c :: rest => needle.isPrefixOf (c :: rest) || isSubstr needle rest

/-- JS toLowerCase, per-char simple mapping (exact on the ASCII data used here). -/
def lowerChars (s : String) : List Char := s.data.map Char.toLower

/-- `address.includes(kw)` as used by the region mapper (address already lowercased). -/
def containsKw (address : List Char) (kw : String) : Bool := isSubstr kw.data address

/-- JS String.prototype.trim on a char list. -/
def trimChars (l : List Char) : List Char :=
  ((l.dropWhile wsChar).reverse.dropWhile wsChar).reverse

/-- Decimal value of a digit string (JS Number on an all-digit match group). -/
def charsToNat (l : List Char) : Nat := l.foldl (fun a c => a * 10 + (c.toNat - 48)) 0

/-- Match the region-mapper ZIP pattern 787 followed by two digits, then a word
    boundary, at the head of the list; returns the numeric ZIP. -/
def zipHere : List Char → Option Nat
  | '7' :: '8' :: '7' :: d1 :: d2 :: rest =>
    if d1.isDigit && d2.isDigit &&
        (match rest with | [] => true | c :: _ => !wordChar c) then
      some (78700 + (d1.toNat - 48) * 10 + (d2.toNat - 48))
    else none
  | _ => none

/-- Leftmost match of the anchored-at-word-boundary ZIP pattern: the scanner keeps
    whether the previous char was a word char (boundary before the leading 7). -/
def findZipAux (prevIsWord : Bool) : List Char → Option Nat
  | [] => none
  | c :: rest =>
    match (if prevIsWord then none else zipHere (c :: rest)) with
    | some z => some z
    | none => findZipAux (wordChar c) rest

/-- `address.match` of the five-digit Austin ZIP pattern in regionFromAddress. -/
def findZip (address : List Char) : Option Nat := findZipAux false address

def eastZips : List Nat := [78702, 78721, 78722, 78723, 78724, 78725, 78741, 78744, 78752]

def westZips : List Nat := [78703, 78731, 78746, 78733, 78735, 78730]

def northZips : List Nat := [78727, 78728, 78729, 78753, 78757, 78758, 78759]

def southZips : List Nat := [78704, 78745, 78747, 78748, 78749]

/-- The body of regionFromAddress's `if (zip)` block, in source order: the four
    directional ZIP buckets, then the specific-ZIP neighborhood checks, then the
    78701 downtown check; `none` means control falls through to the bare
    directional keyword rules below the block. -/
def zipRules (z : Nat) (address : List Char) : Option String :=
  if eastZips.contains z then some "East Austin"
  else if westZips.contains z then some "West Austin"
  else if northZips.contains z then some "North Austin"
  else if southZips.contains z then some "South Austin"
  else if z = 78704 && containsKw address "barton" then some "Barton Hills"
  else if z = 78704 && containsKw address "zilker" then some "Zilker"
  else if z = 78723 && containsKw address "mueller" then some "Mueller"
  else if z = 78701 then some "Downtown Austin"
  else none

/-- The trailing keyword rules of regionFromAddress (bare directional words). -/
def dirRules (address : List Char) : Option String :=
  if containsKw address "east" then some "East Austin"
  else if containsKw address "west" then some "West Austin"
  else if containsKw address "north" then some "North Austin"
  else if containsKw address "south" then some "South Austin"
  else none

/-- utils/regionMapper.ts regionFromAddress: neighborhood keywords, then ZIP
    bucket rules, then bare directional keywords. -/
def regionFromAddress (addressRaw : Option String) : Option String :=
  match addressRaw with
  | none => none
  | some raw =>
    if raw = "" then none
    else
      let address := lowerChars raw
      if containsKw address "barton hills" then some "Barton Hills"
      else if containsKw address "zilker" then some "Zilker"
      else if containsKw address "mueller" then some "Mueller"
      else if containsKw address "downtown" then some "Downtown Austin"
      else
        match findZip address with
        | some z =>
          match zipRules z address with
          | some r => some r
          | none => dirRules address
        | none => dirRules address

/-- Replace every run of whitespace by a single space (replace of the global
    whitespace-run pattern by one space); prevWs records whether the current
    position is inside a run already emitted. -/
def collapseWsAux (prevWs : Bool) : List Char → List Char
  | [] => []
  | c :: rest =>
    if wsChar c then
      if prevWs then collapseWsAux true rest
      else ' ' :: collapseWsAux true rest
    else c :: collapseWsAux false rest

def collapseWs (l : List Char) : List Char := collapseWsAux false l

/-- getIntakeHeatmap's normalizeLabel: trim, then collapse inner whitespace. -/
def normalizeLabel (s : String) : String := String.mk (collapseWs (trimChars s.data))

/-- Strip a leading house number (replace of the anchored optional-whitespace,
    digits, whitespace pattern by the empty string); no digits or no following
    whitespace leaves the input unchanged. -/
def stripHouseNumber (l : List Char) : List Char :=
  let l1 := l.dropWhile wsChar
  let p1 := l1.span Char.isDigit
  if p1.1.isEmpty then l
  else
    let p2 := p1.2.span wsChar
    if p2.1.isEmpty then l else p2.2

/-- A char allowed in the city-name body of the trailing in-city pattern:
    anything except comma and parentheses. -/
def bodyChar (c : Char) : Bool := !(c = ',' || c = '(' || c = ')')

/-- The optional parenthesized tail of the in-city pattern: optional whitespace,
    an open paren, non-close-paren chars, a close paren, end of string. -/
def parenTailOk (l : List Char) : Bool :=
  match (l.span wsChar).2 with
  | '(' :: r1 =>
    (match (r1.span (fun c => !(c = ')'))).2 with
     | ')' :: r2 => r2.isEmpty
     | _ => false)
  | _ => false

/-- Anchored match of the in-city suffix pattern: whitespace, the word in
    (case-insensitive), whitespace, a nonempty body without comma or parens,
    then optionally a parenthesized state, then end of string. -/
def matchInCitySuffix (l : List Char) : Bool :=
  let p1 := l.span wsChar
  if p1.1.isEmpty then false
  else
    match p1.2 with
    | c1 :: c2 :: r2 =>
      if c1.toLower = 'i' && c2.toLower = 'n' then
        let p2 := r2.span wsChar
        if p2.1.isEmpty then false
        else
          let p3 := p2.2.span bodyChar
          if p3.1.isEmpty then false
          else p3.2.isEmpty || parenTailOk p3.2
      else false
    | _ => false

/-- Drop the leftmost suffix matching the in-city pattern (JS replace scans
    start positions left to right; the pattern is end-anchored). -/
def stripInCityAux (acc : List Char) : List Char → List Char
  | [] => acc.reverse
  | c :: rest =>
    if matchInCitySuffix (c :: rest) then acc.reverse
    else stripInCityAux (c :: acc) rest

def stripInCity (l : List Char) : List Char := stripInCityAux [] l

/-- getIntakeHeatmap's bucketFromLocation: trim, strip house number, strip a
    trailing in-city clause, canonicalize whitespace; empty result is none. -/
def bucketFromLocation (loc : Option String) : Option String :=
  match loc with
  | none => none
  | some s0 =>
    if s0 = "" then none
    else
      let s := trimChars s0.data
      let t := trimChars (collapseWs (stripInCity (stripHouseNumber s)))
      if t.isEmpty then none else some (String.mk t)

/-- getIntakeHeatmap's quadrantFromString: hash the char codes and pick one of
    four quadrant labels. (charCodeAt returns UTF-16 units; Char.toNat agrees on
    the basic plane, which covers the data here.) -/
def quadrantFromString (s : Option String) : Option String :=
  match s with
  | none => none
  | some str =>
    if str = "" then none
    else
      let sum := str.data.foldl (fun a c => a + c.toNat) 0
      some (["Quadrant A", "Quadrant B", "Quadrant C", "Quadrant D"].getD (sum % 4) "Quadrant A")

/-! ### Date parsing (getIntakeHeatmap's tryParseYear and the backfill formats) -/

/-- The time-of-day tail: one or two hour digits, colon, exactly two minute
    digits, optionally colon and exactly two second digits, end of string. -/
def timeOk (l : List Char) : Bool :=
  let p1 := l.span Char.isDigit
  (p1.1.length = 1 || p1.1.length = 2) &&
  (match p1.2 with
   | ':' :: r2 =>
     let p2 := r2.span Char.isDigit
     p2.1.length = 2 &&
     (match p2.2 with
      | [] => true
      | ':' :: r4 =>
        let p3 := r4.span Char.isDigit
        p3.1.length = 2 && p3.2.isEmpty
      | _ => false)
   | _ => false)

/-- The optional whitespace-then-time suffix of the day-month-year patterns. -/
def optTimeSuffix (l : List Char) : Bool :=
  match l with
  | [] => true
  | _ =>
    let p := l.span wsChar
    !p.1.isEmpty && timeOk p.2

/-- Anchored match of one or two digits, separator, one or two digits,
    separator, four year digits, optional time; slashOnly restricts the
    separators to the slash (the first pattern in tryParseYear); returns the
    year group. -/
def matchMDY (slashOnly : Bool) (l : List Char) : Option Int :=
  let p1 := l.span Char.isDigit
  if p1.1.length = 0 || 2 < p1.1.length then none
  else
    match p1.2 with
    | s1 :: r2 =>
      if (if slashOnly then s1 = '/' else (s1 = '-' || s1 = '/')) then
        let p2 := r2.span Char.isDigit
        if p2.1.length = 0 || 2 < p2.1.length then none
        else
          match p2.2 with
          | s2 :: r4 =>
            if (if slashOnly then s2 = '/' else (s2 = '-' || s2 = '/')) then
              let p3 := r4.span Char.isDigit
              if p3.1.length = 4 && optTimeSuffix p3.2 then some (charsToNat p3.1)
              else none
            else none
          | [] => none
      else none
    | [] => none

/-- Anchored match of four year digits, dash or slash, one or two month digits,
    end of string; returns (year, month). -/
def matchYMpair (l : List Char) : Option (Int × Int) :=
  let p1 := l.span Char.isDigit
  if p1.1.length = 4 then
    match p1.2 with
    | s :: r2 =>
      if s = '-' || s = '/' then
        let p2 := r2.span Char.isDigit
        if (p2.1.length = 1 || p2.1.length = 2) && p2.2.isEmpty then
          some (charsToNat p1.1, charsToNat p2.1)
        else none
      else none
    | [] => none
  else none

/-- Anchored match of one or two month digits, dash or slash, four year digits,
    end of string; returns (month, year). -/
def matchMYpair (l : List Char) : Option (Int × Int) :=
  let p1 := l.span Char.isDigit
  if p1.1.length = 1 || p1.1.length = 2 then
    match p1.2 with
    | s :: r2 =>
      if s = '-' || s = '/' then
        let p2 := r2.span Char.isDigit
        if p2.1.length = 4 && p2.2.isEmpty then
          some (charsToNat p1.1, charsToNat p2.1)
        else none
      else none
    | [] => none
  else none

/-- getIntakeHeatmap's tryParseYear. The leading attempt is the JS Date
    constructor, a platform builtin abstracted as the parameter jsYear (the
    year of the parsed value, none for an Invalid Date); the explicit regex
    fallbacks of the source follow in order. -/
def tryParseYear (jsYear : String → Option Int) (s : Option String) : Option Int :=
  match s with
  | none => none
  | some str =>
    if str = "" then none
    else
      let t := trimChars str.data
      match jsYear (String.mk t) with
      | some y => some y
      | none =>
        match matchMDY true t with
        | some y => some y
        | none =>
          match matchMDY false t with
          | some y => some y
          | none =>
            match matchYMpair t with
            | some p => some p.1
            | none =>
              match matchMYpair t with
              | some p => some p.2
              | none => none

/-- The intake-record projection fetched by the heatmap query. -/
structure HIntakeRecord where
  region : Option String
  foundLocation : Option String
  datetime : Option String
  monthyear : Option String
deriving DecidableEq

/-- getIntakeHeatmap's deriveYear: the datetime field first, then monthyear. -/
def deriveYear (jsYear : String → Option Int) (r : HIntakeRecord) : Option Int :=
  match tryParseYear jsYear r.datetime with
  | some y => some y
  | none => tryParseYear jsYear r.monthyear

/-- The region fallback chain of the heatmap loop: regionFromAddress, else
    bucketFromLocation, else quadrantFromString (all yield none or a nonempty
    label, so the JS or-chain is the Option or-chain). -/
def derivedRegion (loc : Option String) : Option String :=
  match regionFromAddress loc with
  | some r => some r
  | none =>
    match bucketFromLocation loc with
    | some b => some b
    | none => quadrantFromString loc

/-- The region assigned to one record in the heatmap loop: the stored region if
    truthy, else the derivation chain, else the literal Unknown default. -/
def recordRegion (r : HIntakeRecord) : String :=
  let reg := if jsFalsy r.region then derivedRegion r.foundLocation else r.region
  match reg with
  | some s => s
  | none => "Unknown"

/-- The (normalized label, year) pairs of the processed records; records whose
    year cannot be derived are skipped. -/
def processedPairs (jsYear : String → Option Int) (recs : List HIntakeRecord) :
    List (String × Int) :=
  recs.filterMap fun r =>
    match deriveYear jsYear r with
    | some y => some (normalizeLabel (recordRegion r), y)
    | none => none

/-! ### Percentile risk tiers (heatmap engine) -/

/-- totalsArray: the region totals sorted ascending (the JS numeric-comparator
    sort; insertion sort is stable and Nat duplicates are identical, so it
    computes the same list). -/
def sortedTotals (totals : List Nat) : List Nat := List.insertionSort (· ≤ ·) totals

/-- p25: the order statistic at index floor(n * 0.25), 0 on an empty array.
    0.25 is exactly representable in binary floating point, so the JS index is
    exactly n / 4. -/
def p25Of (totals : List Nat) : Nat :=
  if totals.length = 0 then 0 else (sortedTotals totals).getD (totals.length / 4) 0

/-- p75: the order statistic at index floor(n * 0.75) = 3n / 4 (0.75 exact). -/
def p75Of (totals : List Nat) : Nat :=
  if totals.length = 0 then 0 else (sortedTotals totals).getD (3 * totals.length / 4) 0

/-- The tier rule: 1 when the total is at most p25, 2 when at most p75, else 3. -/
def riskTier (p25v p75v t : Nat) : Nat :=
  if t ≤ p25v then 1 else if t ≤ p75v then 2 else 3

/-- The tier of one total against the percentiles of the whole totals array. -/
def tierOf (totals : List Nat) (t : Nat) : Nat :=
  riskTier (p25Of totals) (p75Of totals) t

/-- regionRisk: each labelled region total mapped to its tier. -/
def regionRisk (entries : List (String × Nat)) : List (String × Nat) :=
  entries.map (fun e => (e.1, tierOf (entries.map Prod.snd) e.2))

/-! ### Heatmap assembly -/

/-- Deduplication keeping first occurrences (JS object-key insertion order). -/
def firstDedupAux {α : Type} [DecidableEq α] (seen : List α) : List α → List α
  | [] => []
  | x :: xs => if x ∈ seen then firstDedupAux seen xs else x :: firstDedupAux (x :: seen) xs

def firstDedup {α : Type} [DecidableEq α] (l : List α) : List α := firstDedupAux [] l

/-- The region's total count (regionTotals accumulation). -/
def totalOf (pairs : List (String × Int)) (lbl : String) : Nat :=
  (pairs.filter (fun p => decide (p.1 = lbl))).length

/-- The (region, year) cell count (regionYearCounts accumulation). -/
def cellCount (pairs : List (String × Int)) (lbl : String) (y : Int) : Nat :=
  (pairs.filter (fun p => decide (p.1 = lbl ∧ p.2 = y))).length

/-- All distinct years, ascending. (The JS sort with no comparator compares
    decimal strings; on the four-digit years produced by the parsers this is
    numeric order.) -/
def sortedYearsOf (pairs : List (String × Int)) : List Int :=
  List.insertionSort (· ≤ ·) (firstDedup (pairs.map Prod.snd))

/-- Object.entries(regionTotals): labels in first-appearance order with totals. -/
def regionEntriesOf (pairs : List (String × Int)) : List (String × Nat) :=
  (firstDedup (pairs.map Prod.fst)).map (fun l => (l, totalOf pairs l))

/-- Region labels sorted by total descending (the JS sort is stable). -/
def sortedRegionsOf (pairs : List (String × Int)) : List String :=
  (List.insertionSort (fun a b : String × Nat => b.2 ≤ a.2) (regionEntriesOf pairs)).map
    Prod.fst

structure HeatmapCell where
  year : Int
  label : String
  tier : Nat
  count : Nat
deriving DecidableEq

/-- The data part of the heatmap response (the fields the aggregation
    computes; bookkeeping fields like the verification block are omitted). -/
structure HeatmapPayload where
  years : List Int
  regions : List String
  heatmapData : List HeatmapCell
  zValues : List (List Nat)
  countsMatrix : List (List Nat)
  thresholdLow : Nat
  thresholdMedium : Nat
  totalRecords : Nat
deriving DecidableEq

/-- The safe empty payload returned when no years or no regions were derived. -/
def emptyPayload (totalRecords : Nat) : HeatmapPayload :=
  { years := [], regions := [], heatmapData := [], zValues := [], countsMatrix := [],
    thresholdLow := 0, thresholdMedium := 0, totalRecords := totalRecords }

/-- The matrix-building tail of getIntakeHeatmap over the processed pairs. -/
def heatmapFromPairs (pairs : List (String × Int)) (totalRecords : Nat) : HeatmapPayload :=
  let years := sortedYearsOf pairs
  let regions := sortedRegionsOf pairs
  let totals := (regionEntriesOf pairs).map Prod.snd
  let p25 := p25Of totals
  let p75 := p75Of totals
  if years.isEmpty || regions.isEmpty then emptyPayload totalRecords
  else
    { years := years, regions := regions,
      heatmapData := regions.flatMap (fun lbl => years.map (fun y =>
        { year := y, label := lbl, tier := riskTier p25 p75 (totalOf pairs lbl),
          count := cellCount pairs lbl y })),
      zValues := regions.map (fun lbl =>
        years.map (fun _ => riskTier p25 p75 (totalOf pairs lbl))),
      countsMatrix := regions.map (fun lbl => years.map (fun y => cellCount pairs lbl y)),
      thresholdLow := p25, thresholdMedium := p75, totalRecords := totalRecords }

/-- getIntakeHeatmap as a function of the fetched records (jsYear abstracts the
    platform Date parse inside tryParseYear). -/
def getIntakeHeatmap (jsYear : String → Option Int) (recs : List HIntakeRecord) :
    HeatmapPayload :=
  heatmapFromPairs (processedPairs jsYear recs) recs.length

/-- An invocation of regionFromAddress in an arbitrary calling context: the
    body of the source function reads only its argument, so the dataset state
    and the call index cannot influence the result. -/
def regionFromAddressInContext (_datasetState : List HIntakeRecord) (_callIndex : Nat)
    (addr : Option String) : Option String :=
  regionFromAddress addr

/-! ### Restricted executable models of the JS Date constructor -/

/-- Restricted model of the year extracted by the JS Date constructor: the ISO
    forms of four year digits, dash, two month digits, optionally dash and two
    day digits, with in-range month and day. Other platform-defined legacy
    formats are abstracted by the jsYear parameters; every concrete input this
    file evaluates on is either inside this fragment or rejected by the builtin
    as well. -/
def jsDateYearModel (s : String) : Option Int :=
  match s.data with
  | [y1, y2, y3, y4, '-', m1, m2] =>
    if [y1, y2, y3, y4, m1, m2].all Char.isDigit &&
        1 ≤ charsToNat [m1, m2] && charsToNat [m1, m2] ≤ 12 then
      some (charsToNat [y1, y2, y3, y4])
    else none
  | [y1, y2, y3, y4, '-', m1, m2, '-', d1, d2] =>
    if [y1, y2, y3, y4, m1, m2, d1, d2].all Char.isDigit &&
        1 ≤ charsToNat [m1, m2] && charsToNat [m1, m2] ≤ 12 &&
        1 ≤ charsToNat [d1, d2] && charsToNat [d1, d2] ≤ 31 then
      some (charsToNat [y1, y2, y3, y4])
    else none
  | _ => none

/-- Restricted model of the full JS Date constructor value as (year, month,
    day), same fragment as jsDateYearModel. A month such as 13 is rejected by
    the builtin in both the ISO and the legacy path, matching none here. -/
def jsNewDateModel (s : String) : Option (Int × Nat × Nat) :=
  match s.data with
  | [y1, y2, y3, y4, '-', m1, m2] =>
    if [y1, y2, y3, y4, m1, m2].all Char.isDigit &&
        1 ≤ charsToNat [m1, m2] && charsToNat [m1, m2] ≤ 12 then
      some (charsToNat [y1, y2, y3, y4], charsToNat [m1, m2], 1)
    else none
  | [y1, y2, y3, y4, '-', m1, m2, '-', d1, d2] =>
    if [y1, y2, y3, y4, m1, m2, d1, d2].all Char.isDigit &&
        1 ≤ charsToNat [m1, m2] && charsToNat [m1, m2] ≤ 12 &&
        1 ≤ charsToNat [d1, d2] && charsToNat [d1, d2] ≤ 31 then
      some (charsToNat [y1, y2, y3, y4], charsToNat [m1, m2], charsToNat [d1, d2])
    else none
  | _ => none

/-- new Date(y, monthIndex, 1) with JS month-overflow normalization. -/
def jsMakeDate (y : Int) (monthIndex : Int) : Int × Nat × Nat :=
  let total := y * 12 + monthIndex
  (Int.fdiv total 12, (Int.emod total 12).toNat + 1, 1)

/-- dataController backfillDatetimes: the three-stage parse of a month-year
    text (the JS Date constructor, then the year-month pattern, then the
    month-year pattern, first valid result wins). -/
def backfillParseDate (jsDate : String → Option (Int × Nat × Nat)) (my : Option String) :
    Option (Int × Nat × Nat) :=
  match my with
  | none => none
  | some str =>
    if str = "" then none
    else
      let t := trimChars str.data
      match jsDate (String.mk t) with
      | some d => some d
      | none =>
        match matchYMpair t with
        | some p => some (jsMakeDate p.1 (p.2 - 1))
        | none =>
          match matchMYpair t with
          | some p => some (jsMakeDate p.2 (p.1 - 1))
          | none => none

/-! ### Bulk ingestion (processCsv) -/

/-- A parsed CSV row: header/value pairs. -/
abbrev CsvRow : Type := List (String × String)

/-- Property access row[k]: undefined when the header is absent. -/
def rowGet (row : CsvRow) (k : String) : Option String :=
  (List.find? (fun p => p.1 = k) row).map Prod.snd

/-- The date-like headers tried for the datetime field, in source order (the
    source reads the DateTime property twice, once in dot and once in bracket
    form; both occurrences are kept). -/
def dateHeaderCandidates : List String :=
  ["datetime", "DateTime", "DateTime", "Intake DateTime", "Intake Date", "date", "Date",
   "Intake Date & Time", "Intake Date and Time", "dateTime", "DATETIME"]

/-- The JS or-chain over the candidate headers: first truthy value. -/
def firstTruthy (row : CsvRow) : List String → Option String
  | [] => none
  | k :: rest =>
    match rowGet row k with
    | some v => if v = "" then firstTruthy row rest else some v
    | none => firstTruthy row rest

/-- dtRaw: the raw datetime candidate of a row. -/
def dtRawOf (row : CsvRow) : Option String := firstTruthy row dateHeaderCandidates

/-- The intake document built by processCsv for one row. -/
structure IntakeDoc where
  animalId : Option String
  name : Option String
  datetime : Option (Int × Nat × Nat)
  monthyear : Option String
  breed : Option String
  color : Option String
  animalType : Option String
  foundLocation : Option String
  region : Option String
  intakeType : Option String
  intakeCondition : Option String
  sexUponIntake : Option String
  ageUponIntake : Option String
deriving DecidableEq

/-- processCsv's per-row transform for intake files: a single JS Date parse of
    the first truthy date candidate (null when falsy or unparsable), plus the
    column-normalized fields and the ingest-time region. -/
def makeIntakeDoc (jsDate : String → Option (Int × Nat × Nat)) (row : CsvRow) : IntakeDoc :=
  let dtRaw := dtRawOf row
  let parsedDate : Option (Int × Nat × Nat) :=
    match dtRaw with
    | none => none
    | some s => jsDate s
  let loc := jsOr (rowGet row "foundLocation") (rowGet row "Found Location")
  { animalId := jsOr (rowGet row "animalId") (rowGet row "Animal ID"),
    name := jsOr (rowGet row "name") (rowGet row "Name"),
    datetime := parsedDate,
    monthyear := jsOr (rowGet row "monthyear") (rowGet row "MonthYear"),
    breed := jsOr (rowGet row "breed") (rowGet row "Breed"),
    color := jsOr (rowGet row "color") (rowGet row "Color"),
    animalType := jsOr (rowGet row "animalType") (rowGet row "Animal Type"),
    foundLocation := loc,
    region := regionFromAddress loc,
    intakeType := jsOr (rowGet row "intakeType") (rowGet row "Intake Type"),
    intakeCondition := jsOr (rowGet row "intakeCondition") (rowGet row "Intake Condition"),
    sexUponIntake := jsOr (rowGet row "sexUponIntake") (rowGet row "Sex upon Intake"),
    ageUponIntake := jsOr (rowGet row "ageUponIntake") (rowGet row "Age upon Intake") }

/-- documents = results.map(transform): one document per parsed row. -/
def mkDocuments (jsDate : String → Option (Int × Nat × Nat)) (rows : List CsvRow) :
    List IntakeDoc :=
  rows.map (makeIntakeDoc jsDate)

/-! ### Batched writes (processCsv insertion) -/

/-- The slicing loop: batches of 10000 documents. -/
def chunks {α : Type} (l : List α) : List (List α) :=
  match l with
  | [] => []
  | x :: xs => (x :: xs).take 10000 :: chunks ((x :: xs).drop 10000)
termination_by l.length
decreasing_by
  simp only [List.length_drop, List.length_cons]
  omega

/-- The outcome of one insertMany call: full success with a count, a partial
    failure carrying per-document write errors, or any other error. -/
inductive BatchOutcome where
  | ok (insertedCount : Nat)
  | writeErrors (numErrors : Nat)
  | hardFail
deriving DecidableEq

/-- The count a batch contributes: the inserted count on success, batch size
    minus the write errors on a partial failure, 0 on any other error. -/
def batchScore {α : Type} (batch : List α) : BatchOutcome → Nat
  | .ok n => n
  | .writeErrors k => batch.length - k
  | .hardFail => 0

/-- totalInserted: the sum of the batch scores over all dispatched batches
    (outcome gives each batch's write result). -/
def totalInserted {α : Type} (outcome : List α → BatchOutcome) (docs : List α) : Nat :=
  ((chunks docs).map (fun b => batchScore b (outcome b))).sum

/-- An intake document with every optional field absent (for concrete
    instantiations). -/
def blankIntakeDoc : IntakeDoc :=
  ⟨none, none, none, none, none, none, none, none, none, none, none, none, none⟩

/-! ### Fallback Forecast Generator (generateFallbackTrends) -/

/-- The fixed seasonal multiplier table (with the JS or-default 1.0). Modeled
    over the rationals: the multipliers and the 0.95..0.99 variation are exact
    decimal constants and the final value is floored, so the rational model
    matches the claims proved here. -/
def seasonalMultiplier (m : Nat) : ℚ :=
  match m with
  | 1 => 7/10
  | 2 => 4/5
  | 3 => 11/10
  | 4 => 6/5
  | 5 => 11/10
  | 6 => 1
  | 7 => 9/10
  | 8 => 4/5
  | 9 => 1
  | 10 => 11/10
  | 11 => 1
  | 12 => 9/10
  | _ => 1

/-- One group of the historical-patterns aggregation: a calendar month, its
    adoption count, and the set of distinct years observed (always nonempty
    when produced by the aggregation). -/
structure HistPattern where
  month : Nat
  monthlyAdoptions : Nat
  years : List Int
deriving DecidableEq

structure ForecastPoint where
  month : Nat
  yhat : Int
  seasonalFactor : ℚ
  historicalAverage : Option Int
deriving DecidableEq

/-- One forecast point: historical monthly average when available (else
    max(50, totalAdoptions / 12)), seasonal multiplier, floor, deterministic
    variation from the month index, floor, and the enforced minimum of 10. -/
def forecastPointFor (totalAdoptions : Nat) (patterns : List HistPattern) (month : Nat) :
    ForecastPoint :=
  let baseMonthly : Nat := max 50 (totalAdoptions / 12)
  let hist := patterns.find? (fun p => p.month = month)
  let histAvg : Option Nat := hist.map (fun p => p.monthlyAdoptions / p.years.length)
  let base0 : Nat :=
    match hist with
    | some p => if 0 < p.monthlyAdoptions then p.monthlyAdoptions / p.years.length
                else baseMonthly
    | none => baseMonthly
  let mult := seasonalMultiplier month
  let base1 : Int := Int.floor ((base0 : ℚ) * mult)
  let variation : ℚ := 95/100 + ((month % 5 : Nat) : ℚ) * (1/100)
  let predicted : Int := Int.floor ((base1 : ℚ) * variation)
  { month := month, yhat := max 10 predicted, seasonalFactor := mult,
    historicalAverage := histAvg.map Int.ofNat }

structure TrendsResult where
  forecast : List ForecastPoint
  accuracy : ℚ
  confidence : String
  totalHistoricalAdoptions : Nat
deriving DecidableEq

/-- generateFallbackTrends' pure core. monthOf i is the calendar month (1-12)
    of the i-th future date (setMonth of the current date plus i, a platform
    date computation abstracted here); the loop runs i = 1..12. -/
def generateFallbackTrends (monthOf : Nat → Nat) (totalAdoptions : Nat)
    (patterns : List HistPattern) : TrendsResult :=
  let forecast := (List.range 12).map
    (fun i => forecastPointFor totalAdoptions patterns (monthOf (i + 1)))
  let dataQuality : ℚ :=
    if 1000 < totalAdoptions then 85/100
    else if 500 < totalAdoptions then 75/100
    else 65/100
  { forecast := forecast,
    accuracy := dataQuality,
    confidence :=
      if 8/10 < dataQuality then "high"
      else if 7/10 < dataQuality then "medium"
      else "low",
    totalHistoricalAdoptions := totalAdoptions }

/-! ### Fallback Hotspot Generator (generateFallbackHotspots) -/

def austinAreas : List String :=
  ["Downtown Austin", "South Austin", "East Austin", "North Austin", "West Austin",
   "Mueller", "Zilker", "Barton Hills", "Hyde Park", "Clarksville"]

/-- The Austin base coordinates, as exact decimals over the rationals. -/
def baseLat : ℚ := 302672/10000

def baseLon : ℚ := -977431/10000

structure Hotspot where
  cluster_id : Nat
  location : String
  risk_level : String
  animal_count : Nat
  priority : String
  latitude : ℚ
  longitude : ℚ
deriving DecidableEq

/-- The loop body: deterministic offsets and count from the entry index. -/
def hotspotAt (i : Nat) : Hotspot :=
  let latOffset : ℚ := ((((i % 5 : Nat) : ℤ) - 2 : ℤ) : ℚ) * (5/100)
  let lonOffset : ℚ := ((((i % 7 : Nat) : ℤ) - 3 : ℤ) : ℚ) * (4/100)
  { cluster_id := i,
    location := austinAreas.getD i "",
    risk_level := if i < 3 then "High" else "Medium",
    animal_count := 80 + i * 15,
    priority := if i < 3 then "High" else "Medium",
    latitude := baseLat + latOffset,
    longitude := baseLon + lonOffset }

/-- generateFallbackHotspots. The source fetches up to 1000 intake records
    (intakeData) but never reads them; the parameter is kept so independence
    from the persisted records is a statable property. -/
def generateFallbackHotspots (_intakeData : List (Option String)) : List Hotspot :=
  (List.range (min 8 austinAreas.length)).map hotspotAt

/-! ## Theorems -/

/-- Helper: the ZIP 78704 is in the south bucket, which is checked before the
    specific-ZIP neighborhood overrides, so the ZIP block returns South Austin
    for every address. -/
theorem zipRules_78704 (address : List Char) : zipRules 78704 address = some "South Austin" :=
  rfl

/-- C1: the heatmap engine computes p25 and p75 as non-interpolated order
    statistics (sorted index floor(n/4) and floor(3n/4)) and assigns tier 1
    when the total is at most p25, tier 2 when at most p75, else 3; on region
    totals A=5, B=20, C=45, D=80 this yields p25=20, p75=80 and tiers A=1, B=1,
    C=2, D=2, the maximum D landing in tier 2 under the at-most rule. -/
theorem heatmap_percentile_scenario :
    p25Of [5, 20, 45, 80] = 20 ∧ p75Of [5, 20, 45, 80] = 80 ∧
    regionRisk [("A", 5), ("B", 20), ("C", 45), ("D", 80)] =
      [("A", 1), ("B", 1), ("C", 2), ("D", 2)] ∧
    tierOf [5, 20, 45, 80] 80 = 2 := by
  decide

/-- C2: the tier assignment is monotonic in the region total: among the tiers
    the engine assigns, a region with a strictly larger total never gets a
    strictly smaller tier. -/
theorem heatmap_tier_monotonic (entries : List (String × Nat)) (r1 r2 : String)
    (t1 t2 : Nat) (h1 : (r1, t1) ∈ entries) (h2 : (r2, t2) ∈ entries) (hlt : t1 < t2) :
    (r1, tierOf (entries.map Prod.snd) t1) ∈ regionRisk entries ∧
    (r2, tierOf (entries.map Prod.snd) t2) ∈ regionRisk entries ∧
    tierOf (entries.map Prod.snd) t1 ≤ tierOf (entries.map Prod.snd) t2 := by
  unfold regionRisk tierOf riskTier
  refine ⟨List.mem_map_of_mem _ h1, List.mem_map_of_mem _ h2, ?_⟩
  split_ifs <;> omega

theorem heatmap_tier_monotonic_witness :
    ("A", tierOf ([("A", 5), ("D", 80)].map Prod.snd) 5) ∈ regionRisk [("A", 5), ("D", 80)] ∧
    ("D", tierOf ([("A", 5), ("D", 80)].map Prod.snd) 80) ∈ regionRisk [("A", 5), ("D", 80)] ∧
    tierOf ([("A", 5), ("D", 80)].map Prod.snd) 5 ≤
      tierOf ([("A", 5), ("D", 80)].map Prod.snd) 80 :=
  heatmap_tier_monotonic [("A", 5), ("D", 80)] "A" "D" 5 80 (by decide) (by decide)
    (by decide)

/-- C3 counterexample: an address that carries the overlapping ZIP 78704 and
    the barton keyword (but no rule-1 neighborhood keyword) is mapped to the
    directional bucket South Austin, not to the named neighborhood Barton
    Hills: the directional ZIP sets are consulted before the specific-ZIP
    keyword overrides, which are unreachable for 78704 and 78723. -/
theorem region_overlap_counterexample :
    containsKw (lowerChars "barton rd 78704") "barton" = true ∧
    containsKw (lowerChars "barton rd 78704") "barton hills" = false ∧
    containsKw (lowerChars "barton rd 78704") "zilker" = false ∧
    containsKw (lowerChars "barton rd 78704") "mueller" = false ∧
    findZip (lowerChars "barton rd 78704") = some 78704 ∧
    regionFromAddress (some "barton rd 78704") = some "South Austin" ∧
    regionFromAddress (some "barton rd 78704") ≠ some "Barton Hills" := by
  decide

/-- C3 amended: for every address whose extracted ZIP is the overlapping code
    78704 and which contains the barton keyword without matching any rule-1
    neighborhood keyword, the heuristic returns the directional bucket South
    Austin: the ZIP-bucket rule fires first and the secondary keyword override
    is dead code. -/
theorem region_zip78704_bucket_wins (raw : String)
    (hne : raw ≠ "")
    (_hb : containsKw (lowerChars raw) "barton" = true)
    (hbh : containsKw (lowerChars raw) "barton hills" = false)
    (hzk : containsKw (lowerChars raw) "zilker" = false)
    (hmu : containsKw (lowerChars raw) "mueller" = false)
    (hdt : containsKw (lowerChars raw) "downtown" = false)
    (hzip : findZip (lowerChars raw) = some 78704) :
    regionFromAddress (some raw) = some "South Austin" := by
  unfold regionFromAddress
  simp only [hbh, hzk, hmu, hdt, hzip, if_neg hne, Bool.false_eq_true, if_false,
    zipRules_78704]

theorem region_zip78704_bucket_wins_witness :
    regionFromAddress (some "barton rd 78704") = some "South Austin" :=
  region_zip78704_bucket_wins "barton rd 78704" (by decide) (by decide) (by decide)
    (by decide) (by decide) (by decide) (by decide)

/-- C6: region inference is pure, total and deterministic: an invocation is a
    function of the address argument alone, so the result is unchanged across
    dataset states and call orders, and identical input gives identical
    output (totality is by construction of the Lean function). -/
theorem regionFromAddress_pure_deterministic (addr : Option String)
    (s1 s2 : List HIntakeRecord) (i1 i2 : Nat) :
    regionFromAddressInContext s1 i1 addr = regionFromAddressInContext s2 i2 addr ∧
    regionFromAddressInContext s1 i1 addr = regionFromAddress addr :=
  ⟨rfl, rfl⟩

/-- Helper: the batches concatenate back to the document list. -/
theorem chunks_flatten {α : Type} (l : List α) : (chunks l).flatten = l := by
  match l with
  | [] => simp [chunks]
  | x :: xs =>
    have ih := chunks_flatten ((x :: xs).drop 10000)
    simp only [chunks, List.flatten_cons, ih, List.take_append_drop]
termination_by l.length
decreasing_by
  simp only [List.length_drop, List.length_cons]
  omega

/-- Helper: every batch is nonempty and holds at most 10000 documents. -/
theorem chunks_mem_size {α : Type} (l : List α) :
    ∀ b ∈ chunks l, b ≠ [] ∧ b.length ≤ 10000 := by
  match l with
  | [] => simp [chunks]
  | x :: xs =>
    have ih := chunks_mem_size ((x :: xs).drop 10000)
    intro b hb
    simp only [chunks, List.mem_cons] at hb
    rcases hb with rfl | hb
    · constructor
      · apply List.ne_nil_of_length_pos
        simp only [List.length_take, List.length_cons]
        omega
      · simp only [List.length_take, List.length_cons]
        omega
    · exact ih b hb
termination_by l.length
decreasing_by
  simp only [List.length_drop, List.length_cons]
  omega

/-- Helper: every batch except possibly the last holds exactly 10000
    documents. -/
theorem chunks_dropLast_size {α : Type} (l : List α) :
    ∀ b ∈ (chunks l).dropLast, b.length = 10000 := by
  match l with
  | [] => simp [chunks]
  | x :: xs =>
    have ih := chunks_dropLast_size ((x :: xs).drop 10000)
    intro b hb
    simp only [chunks] at hb
    cases hdrop : chunks ((x :: xs).drop 10000) with
    | nil => rw [hdrop] at hb; simp at hb
    | cons c cs =>
      rw [hdrop, List.dropLast_cons₂] at hb
      rcases List.mem_cons.mp hb with rfl | hmem
      · have hne : (x :: xs).drop 10000 ≠ [] := by
          intro h0
          rw [h0] at hdrop
          simp [chunks] at hdrop
        have hlen : 10000 < (x :: xs).length := by
          have := List.length_pos.mpr hne
          simp only [List.length_drop] at this
          omega
        simp only [List.length_take]
        omega
      · exact ih b (by rw [hdrop]; exact hmem)
termination_by l.length
decreasing_by
  simp only [List.length_drop, List.length_cons]
  omega

/-- C4 counterexample: the bulk loader does not try the month-only fallbacks.
    On a row whose date field is the month-year text 13-2015, the single Date
    parse of processCsv fails and the stored date is null, while the
    three-stage chain (which lives in the separate backfill endpoint) parses it
    to January 2016 via the month-year pattern with month overflow. -/
theorem ingest_single_parse_counterexample :
    dtRawOf [("datetime", "13-2015")] = some "13-2015" ∧
    (makeIntakeDoc jsNewDateModel [("datetime", "13-2015")]).datetime = none ∧
    backfillParseDate jsNewDateModel (some "13-2015") = some (2016, 1, 1) := by
  decide

/-- C4 amended: during bulk ingestion the loader derives the record's date from
    the first non-empty candidate among the accepted date-like header fields by
    a single Date-constructor parse (the month-only fallbacks exist only in the
    separate datetime-backfill endpoint); a row whose candidate is missing or
    unparsable is still stored, with a null date, rather than rejected. -/
theorem ingest_rows_stored_with_nullable_date (jsDate : String → Option (Int × Nat × Nat))
    (rows : List CsvRow) :
    (mkDocuments jsDate rows).length = rows.length ∧
    ∀ row ∈ rows,
      makeIntakeDoc jsDate row ∈ mkDocuments jsDate rows ∧
      (makeIntakeDoc jsDate row).datetime =
        (match dtRawOf row with
         | none => none
         | some s => jsDate s) := by
  refine ⟨by simp [mkDocuments], ?_⟩
  intro row hrow
  exact ⟨List.mem_map_of_mem _ hrow, rfl⟩

theorem ingest_rows_stored_with_nullable_date_witness :
    (mkDocuments jsNewDateModel [[("datetime", "13-2015")]]).length =
      ([[("datetime", "13-2015")]] : List CsvRow).length ∧
    ∀ row ∈ ([[("datetime", "13-2015")]] : List CsvRow),
      makeIntakeDoc jsNewDateModel row ∈ mkDocuments jsNewDateModel [[("datetime", "13-2015")]] ∧
      (makeIntakeDoc jsNewDateModel row).datetime =
        (match dtRawOf row with
         | none => none
         | some s => jsNewDateModel s) :=
  ingest_rows_stored_with_nullable_date jsNewDateModel [[("datetime", "13-2015")]]

/-- C5: the loader partitions the documents into batches of 10000 (each batch
    nonempty, at most 10000, all but the last exactly 10000, concatenating back
    to the input), and the returned total is the sum over batches of each
    batch's success count, where a batch with write errors contributes its
    size minus the error count and any other batch failure contributes 0 —
    one batch's failure never affects the other batches' contributions or
    turns the overall result into a failure. -/
theorem ingest_batched_sum_isolated (docs : List IntakeDoc)
    (outcome : List IntakeDoc → BatchOutcome) :
    (chunks docs).flatten = docs ∧
    (∀ b ∈ chunks docs, b ≠ [] ∧ b.length ≤ 10000) ∧
    (∀ b ∈ (chunks docs).dropLast, b.length = 10000) ∧
    totalInserted outcome docs =
      ((chunks docs).map (fun b => batchScore b (outcome b))).sum ∧
    (∀ (b : List IntakeDoc) (k : Nat),
       batchScore b (BatchOutcome.writeErrors k) = b.length - k) ∧
    (∀ b : List IntakeDoc, batchScore b BatchOutcome.hardFail = 0) :=
  ⟨chunks_flatten docs, chunks_mem_size docs, chunks_dropLast_size docs, rfl,
   fun _ _ => rfl, fun _ => rfl⟩

theorem ingest_batched_sum_isolated_witness :
    (chunks [blankIntakeDoc, blankIntakeDoc]).flatten = [blankIntakeDoc, blankIntakeDoc] ∧
    (∀ b ∈ chunks [blankIntakeDoc, blankIntakeDoc], b ≠ [] ∧ b.length ≤ 10000) ∧
    (∀ b ∈ (chunks [blankIntakeDoc, blankIntakeDoc]).dropLast, b.length = 10000) ∧
    totalInserted (fun _ => BatchOutcome.writeErrors 1) [blankIntakeDoc, blankIntakeDoc] =
      ((chunks [blankIntakeDoc, blankIntakeDoc]).map
        (fun b => batchScore b ((fun _ => BatchOutcome.writeErrors 1) b))).sum ∧
    (∀ (b : List IntakeDoc) (k : Nat),
       batchScore b (BatchOutcome.writeErrors k) = b.length - k) ∧
    (∀ b : List IntakeDoc, batchScore b BatchOutcome.hardFail = 0) :=
  ingest_batched_sum_isolated [blankIntakeDoc, blankIntakeDoc]
    (fun _ => BatchOutcome.writeErrors 1)

/-- C7: over records none of which yields a derivable year, the heatmap engine
    returns the safe empty payload (empty years, regions, tier matrix and count
    matrix) instead of failing; the embedding is a total function, so no error
    is possible. -/
theorem heatmap_empty_on_no_eligible (jsYear : String → Option Int)
    (recs : List HIntakeRecord) (h : ∀ r ∈ recs, deriveYear jsYear r = none) :
    getIntakeHeatmap jsYear recs = emptyPayload recs.length := by
  have hp : processedPairs jsYear recs = [] := by
    apply List.filterMap_eq_nil_iff.mpr
    intro r hr
    rw [h r hr]
  rw [getIntakeHeatmap, hp]
  rfl

theorem heatmap_empty_on_no_eligible_witness :
    getIntakeHeatmap (fun _ => none) [⟨none, some "Main St", none, some "notadate"⟩] =
      emptyPayload 1 :=
  heatmap_empty_on_no_eligible (fun _ => none)
    [⟨none, some "Main St", none, some "notadate"⟩] (by decide)

/-- C8: with zero historical adoption outcomes (so a zero adoption count and an
    empty monthly-pattern aggregation), the fallback forecast has exactly 12
    points, every point's integer prediction is at least the enforced floor of
    10, and the returned confidence is low. -/
theorem fallback_trends_zero_history (monthOf : Nat → Nat) (totalAdoptions : Nat)
    (patterns : List HistPattern) (hA : totalAdoptions = 0) (hP : patterns = []) :
    (generateFallbackTrends monthOf totalAdoptions patterns).forecast.length = 12 ∧
    (∀ p ∈ (generateFallbackTrends monthOf totalAdoptions patterns).forecast,
       10 ≤ p.yhat) ∧
    (generateFallbackTrends monthOf totalAdoptions patterns).confidence = "low" := by
  subst hA
  subst hP
  refine ⟨by simp [generateFallbackTrends], ?_, ?_⟩
  · intro p hp
    simp only [generateFallbackTrends, List.mem_map] at hp
    obtain ⟨i, _, rfl⟩ := hp
    simp only [forecastPointFor]
    exact le_max_left _ _
  · simp only [generateFallbackTrends]
    norm_num

theorem fallback_trends_zero_history_witness :
    (generateFallbackTrends (fun i => (i % 12) + 1) 0 []).forecast.length = 12 ∧
    (∀ p ∈ (generateFallbackTrends (fun i => (i % 12) + 1) 0 []).forecast,
       10 ≤ p.yhat) ∧
    (generateFallbackTrends (fun i => (i % 12) + 1) 0 []).confidence = "low" :=
  fallback_trends_zero_history (fun i => (i % 12) + 1) 0 [] rfl rfl

/-- C9: the fallback hotspot generator ignores the fetched records, so its
    output is identical on every invocation; it returns exactly 8 hotspots,
    and each entry's coordinates, count and risk level are the stated pure
    functions of the entry index off the fixed base coordinate. -/
theorem fallback_hotspots_deterministic (d1 d2 : List (Option String)) :
    generateFallbackHotspots d1 = generateFallbackHotspots d2 ∧
    (generateFallbackHotspots d1).length = 8 ∧
    ∀ h ∈ generateFallbackHotspots d1,
      h.latitude = baseLat + ((((h.cluster_id % 5 : Nat) : ℤ) - 2 : ℤ) : ℚ) * (5/100) ∧
      h.longitude = baseLon + ((((h.cluster_id % 7 : Nat) : ℤ) - 3 : ℤ) : ℚ) * (4/100) ∧
      h.animal_count = 80 + 15 * h.cluster_id ∧
      h.risk_level = (if h.cluster_id < 3 then "High" else "Medium") := by
  refine ⟨rfl, rfl, ?_⟩
  have hgen : generateFallbackHotspots d1 =
      [hotspotAt 0, hotspotAt 1, hotspotAt 2, hotspotAt 3, hotspotAt 4, hotspotAt 5,
       hotspotAt 6, hotspotAt 7] := rfl
  rw [hgen]
  intro h hh
  fin_cases hh <;> refine ⟨?_, ?_, ?_, ?_⟩ <;> norm_num [hotspotAt, baseLat, baseLon]

theorem fallback_hotspots_deterministic_witness :
    generateFallbackHotspots [] = generateFallbackHotspots [some "x"] ∧
    (generateFallbackHotspots []).length = 8 ∧
    ∀ h ∈ generateFallbackHotspots [],
      h.latitude = baseLat + ((((h.cluster_id % 5 : Nat) : ℤ) - 2 : ℤ) : ℚ) * (5/100) ∧
      h.longitude = baseLon + ((((h.cluster_id % 7 : Nat) : ℤ) - 3 : ℤ) : ℚ) * (4/100) ∧
      h.animal_count = 80 + 15 * h.cluster_id ∧
      h.risk_level = (if h.cluster_id < 3 then "High" else "Medium") :=
  fallback_hotspots_deterministic [] [some "x"]

/-- C10 counterexample: a record with no stored region but the non-empty
    found-location text Unknown is processed (year derivable) and receives the
    label Unknown — not from the no-region default, but because the cleaned
    location text itself is the word Unknown; so the label Unknown does not
    arise only for records with an empty or missing location string. -/
theorem unknown_label_counterexample :
    deriveYear jsDateYearModel ⟨none, some "Unknown", none, some "2019-05"⟩ = some 2019 ∧
    (⟨none, some "Unknown", none, some "2019-05"⟩ : HIntakeRecord).region = none ∧
    (⟨none, some "Unknown", none, some "2019-05"⟩ : HIntakeRecord).foundLocation =
      some "Unknown" ∧
    ("Unknown" : String) ≠ "" ∧
    normalizeLabel (recordRegion ⟨none, some "Unknown", none, some "2019-05"⟩) =
      "Unknown" := by
  decide

/-- Helper: the quadrant fallback maps every non-empty string to one of the
    four quadrant labels. -/
theorem quadrantFromString_total (s : String) (hs : s ≠ "") :
    ∃ q ∈ ["Quadrant A", "Quadrant B", "Quadrant C", "Quadrant D"],
      quadrantFromString (some s) = some q := by
  simp only [quadrantFromString]
  rw [if_neg hs]
  have h4 : (s.data.foldl (fun a c => a + c.toNat) 0) % 4 = 0 ∨
      (s.data.foldl (fun a c => a + c.toNat) 0) % 4 = 1 ∨
      (s.data.foldl (fun a c => a + c.toNat) 0) % 4 = 2 ∨
      (s.data.foldl (fun a c => a + c.toNat) 0) % 4 = 3 := by omega
  rcases h4 with h | h | h | h <;> rw [h]
  · exact ⟨"Quadrant A", by decide, rfl⟩
  · exact ⟨"Quadrant B", by decide, rfl⟩
  · exact ⟨"Quadrant C", by decide, rfl⟩
  · exact ⟨"Quadrant D", by decide, rfl⟩

/-- C10 amended: every processed record with no stored region and a non-empty
    found-location string is assigned a label by the derivation chain itself
    (the quadrant fallback alone already maps any non-empty string to one of
    Quadrant A through D), so the hard-coded Unknown default is reached only
    when the location is empty or missing; the emitted label can nevertheless
    literally be the word Unknown when the cleaned location text spells it. -/
theorem nonempty_location_always_labelled (r : HIntakeRecord) (s : String)
    (hreg : r.region = none) (hloc : r.foundLocation = some s) (hs : s ≠ "") :
    (∃ q ∈ ["Quadrant A", "Quadrant B", "Quadrant C", "Quadrant D"],
       quadrantFromString (some s) = some q) ∧
    ∃ lbl, derivedRegion (some s) = some lbl ∧ recordRegion r = lbl := by
  refine ⟨quadrantFromString_total s hs, ?_⟩
  cases hR : regionFromAddress (some s) with
  | some v =>
    refine ⟨v, by simp [derivedRegion, hR], ?_⟩
    simp [recordRegion, hreg, hloc, jsFalsy, derivedRegion, hR]
  | none =>
    cases hB : bucketFromLocation (some s) with
    | some v =>
      refine ⟨v, by simp [derivedRegion, hR, hB], ?_⟩
      simp [recordRegion, hreg, hloc, jsFalsy, derivedRegion, hR, hB]
    | none =>
      obtain ⟨q, _, hq⟩ := quadrantFromString_total s hs
      refine ⟨q, by simp [derivedRegion, hR, hB, hq], ?_⟩
      simp [recordRegion, hreg, hloc, jsFalsy, derivedRegion, hR, hB, hq]

theorem nonempty_location_always_labelled_witness :
    (∃ q ∈ ["Quadrant A", "Quadrant B", "Quadrant C", "Quadrant D"],
       quadrantFromString (some "Elm St") = some q) ∧
    ∃ lbl, derivedRegion (some "Elm St") = some lbl ∧
      recordRegion ⟨none, some "Elm St", none, none⟩ = lbl :=
  nonempty_location_always_labelled ⟨none, some "Elm St", none, none⟩ "Elm St" rfl rfl
    (by decide)

end SmartPaws
